import Mathlib

/-!
Verification of the RIIGID session layer (`riigid/riigid.py`).

The embedding models the `RIIGID` class: its component-configuration
methods (`set_calculator`, `set_optimizer`, `set_convergence_criterion`),
the `run` entry point, and the four persistence functions
(`save_optimization_history`, `create_trajectory_file_from_optimization_history`,
`save_final_geometry`, `save_optimization_summary`) together with their
driver `save_optimization_progress`.

Python floats are idealized as exact rationals (`ℚ`); the Euclidean norm
computed by `np.linalg.norm` lands in `ℝ`.  Python dicts of keyword
settings are modelled as association lists of strings, with `[]` playing
the role of the empty dict `{}`.
-/

namespace Riigid

/-- Python `str.lower()` restricted to ASCII, which covers every
recognized component name appearing in the source. -/
def lowerStr (s : String) : String := String.mk (s.data.map Char.toLower)

/-- Keyword-settings dict (`settings={}` in the Python signatures),
modelled as an association list; `[]` is the empty dict. -/
abbrev Settings := List (String × String)

/-- A 3-vector of (idealized) floats, used for positions, forces and torques. -/
abbrev Vec3 := ℚ × ℚ × ℚ

/-- One atom of an ASE `Atoms` object: chemical species plus position. -/
structure Atom where
  species : String
  position : Vec3
deriving DecidableEq

/-- An ASE `Atoms` object: an ordered sequence of atoms. -/
abbrev Atoms := List Atom

/-- `riigid.structure.Structure`: the wrapper around the `Atoms` object that
`RIIGID.__init__` builds from its `atoms` argument.  Only the `atoms`
attribute is read by the session layer. -/
structure Structure where
  atoms : Atoms
deriving DecidableEq

/-- An ASE calculator value.  `vasp settings` is the result of
`Vasp(**settings)`; `custom` stands for a ready-made calculator object
handed to `set_calculator` by the user. -/
inductive Calculator
  | vasp (settings : Settings)
  | custom (params : Settings)
deriving DecidableEq

/-- An optimizer value: `GDWAS(**settings)`, `GD(**settings)`,
`GPR(**settings)`, or a ready-made optimizer object. -/
inductive Optimizer
  | gdwas (settings : Settings)
  | gd (settings : Settings)
  | gpr (settings : Settings)
  | custom
deriving DecidableEq

/-- A convergence-criterion value: `Criterion_Displacement(**settings)`,
`Criterion_Force_Torque(**settings)`, or a ready-made criterion object. -/
inductive ConvergenceCriterion
  | criterion_displacement (settings : Settings)
  | criterion_force_torque (settings : Settings)
  | custom
deriving DecidableEq

/-- The errors the session layer can raise.  The Python code raises plain
`Exception`s with distinct messages; we keep one constructor per message. -/
inductive RIIGIDError
  | calculatorNotKnown
  | optimizerNotKnown
  | convergenceCriterionNotKnown
  | noCalculatorDefined
deriving DecidableEq

/-- The names of the output files configured in `config.json`. -/
inductive FileKind
  | hist_file
  | traj_file
  | geom_file
  | summary_file
deriving DecidableEq

/-- Externally observable work performed by `run`: the optimizer loop
(which owns all calculator invocations and checkpoint callbacks) and
writes of output artifacts. -/
inductive Effect
  | calculatorCall
  | optimizerRun
  | artifactWrite (k : FileKind)
deriving DecidableEq

/-- The mutable attributes of a `RIIGID` object set in `__init__`:
`start_structure`, and the three components all initialized to `None`. -/
structure RIIGIDState where
  start_structure : Structure
  calculator : Option Calculator
  optimizer : Option Optimizer
  convergence_criterion : Option ConvergenceCriterion
deriving DecidableEq

/-- `RIIGID.__init__(atoms)`: wraps the atoms in a `Structure` and leaves
calculator, optimizer and convergence criterion unset. -/
def init (atoms : Atoms) : RIIGIDState :=
  { start_structure := { atoms := atoms }
    calculator := none
    optimizer := none
    convergence_criterion := none }

/-- `RIIGID.set_calculator(calculator, settings={})`.  A string argument is
dispatched case-insensitively: `"vasp"` builds `Vasp(**settings)`, any other
name raises before the `self.calculator` assignment; a calculator object is
stored as-is (settings ignored).  The returned effect trace records any
calculator invocation (there is none: the method only configures). -/
def set_calculator (st : RIIGIDState) (calculator : Sum String Calculator)
    (settings : Settings) : RIIGIDState × List Effect × Option RIIGIDError :=
  match calculator with
  | Sum.inl s =>
      if lowerStr s = "vasp" then
        ({ st with calculator := some (Calculator.vasp settings) }, [], none)
      else
        (st, [], some RIIGIDError.calculatorNotKnown)
  | Sum.inr c => ({ st with calculator := some c }, [], none)

/-- `RIIGID.set_optimizer(optimizer, settings={})`.  String dispatch is
case-insensitive over `"gdwas"`, `"gd"`, `"gpr"`; an unknown name raises
before the `self.optimizer` assignment. -/
def set_optimizer (st : RIIGIDState) (optimizer : Sum String Optimizer)
    (settings : Settings) : RIIGIDState × List Effect × Option RIIGIDError :=
  match optimizer with
  | Sum.inl s =>
      if lowerStr s = "gdwas" then
        ({ st with optimizer := some (Optimizer.gdwas settings) }, [], none)
      else if lowerStr s = "gd" then
        ({ st with optimizer := some (Optimizer.gd settings) }, [], none)
      else if lowerStr s = "gpr" then
        ({ st with optimizer := some (Optimizer.gpr settings) }, [], none)
      else
        (st, [], some RIIGIDError.optimizerNotKnown)
  | Sum.inr o => ({ st with optimizer := some o }, [], none)

/-- `RIIGID.set_convergence_criterion(convergence_criterion, settings={})`.
String dispatch is case-insensitive over `"criterion_displacement"` and
`"criterion_force_torque"`; an unknown name raises before the
`self.convergence_criterion` assignment. -/
def set_convergence_criterion (st : RIIGIDState)
    (convergence_criterion : Sum String ConvergenceCriterion)
    (settings : Settings) : RIIGIDState × List Effect × Option RIIGIDError :=
  match convergence_criterion with
  | Sum.inl s =>
      if lowerStr s = "criterion_displacement" then
        let c := ConvergenceCriterion.criterion_displacement settings
        ({ st with convergence_criterion := some c }, [], none)
      else if lowerStr s = "criterion_force_torque" then
        let c := ConvergenceCriterion.criterion_force_torque settings
        ({ st with convergence_criterion := some c }, [], none)
      else
        (st, [], some RIIGIDError.convergenceCriterionNotKnown)
  | Sum.inr c => ({ st with convergence_criterion := some c }, [], none)

/-- `RIIGID.run()`.  Raises if no calculator is set (before any other work);
fills in the default optimizer `GDWAS` and default criterion
`Criterion_Force_Torque` through the same setters the user would call
(with `settings={}`); then hands control to `optimizer.run` (abstracted as
the `optimizerRun` effect, which owns every calculator call and checkpoint
callback) and finally saves the four artifacts via
`save_optimization_progress`.  The effect trace lists the work performed
before the return or before the raise. -/
def run (st : RIIGIDState) : List Effect × Except RIIGIDError RIIGIDState :=
  if st.calculator.isNone then
    ([], Except.error RIIGIDError.noCalculatorDefined)
  else
    match (if st.optimizer.isNone
           then set_optimizer st (Sum.inl "GDWAS") []
           else (st, [], none)) with
    | (_, _, some e) => ([], Except.error e)
    | (st1, _, none) =>
      match (if st1.convergence_criterion.isNone
             then set_convergence_criterion st1 (Sum.inl "Criterion_Force_Torque") []
             else (st1, [], none)) with
      | (_, _, some e) => ([], Except.error e)
      | (st2, _, none) =>
        ([Effect.optimizerRun,
          Effect.artifactWrite FileKind.hist_file,
          Effect.artifactWrite FileKind.traj_file,
          Effect.artifactWrite FileKind.geom_file,
          Effect.artifactWrite FileKind.summary_file],
         Except.ok st2)

/-- One completed optimization step.  Modelled from the spec:
`riigid/optimization_step.py` is not part of the sources at hand, so the
record follows the spec's data model (section 3, OptimizationStep) and the
attributes the session layer reads: `structure.atoms`, `energy`,
`forces_on_atoms`, `forces_raw`, `forces_allowed`, `torques_raw`,
`torques_allowed`. -/
structure OptimizationStep where
  structure_ : Structure
  energy : ℚ
  forces_on_atoms : List Vec3
  forces_raw : List Vec3
  forces_allowed : List Vec3
  torques_raw : List Vec3
  torques_allowed : List Vec3
deriving DecidableEq

/-- `np.linalg.norm` of a 3-vector: the Euclidean norm. -/
noncomputable def norm3 (v : Vec3) : ℝ :=
  Real.sqrt ((v.1 : ℝ) ^ 2 + (v.2.1 : ℝ) ^ 2 + (v.2.2 : ℝ) ^ 2)

/-- `np.max` on a (nonempty) Python list of floats; `0` is a junk value for
the empty list, on which the original raises. -/
noncomputable def npMax : List ℝ → ℝ
  | [] => 0
  | x :: xs => xs.foldl max x

/-- Index of the first occurrence of `m` in the list (`0` past the end when
`m` is absent). -/
noncomputable def firstIdxOf (m : ℝ) : List ℝ → ℕ
  | [] => 0
  | x :: xs => if x = m then 0 else firstIdxOf m xs + 1

/-- `np.argmax` on a Python list of floats: the index of the first
occurrence of the maximum. -/
noncomputable def npArgmax (l : List ℝ) : ℕ := firstIdxOf (npMax l) l

/-- Specification of a value `m` at index `j` being the maximum of `l`
attained first at `j`: `j` is in range, holds `m`, no element exceeds `m`,
and no earlier index attains `m`. -/
def isFirstMax (l : List ℝ) (m : ℝ) (j : ℕ) : Prop :=
  j < l.length ∧ l.getD j 0 = m ∧ (∀ x ∈ l, x ≤ m) ∧ ∀ k < j, l.getD k 0 ≠ m

/-- One data row of the optimization-summary table, holding the numeric
fields exactly as computed in `save_optimization_summary` (the fixed-width
decimal rendering of these values is not modelled). -/
structure SummaryRow where
  step : ℕ
  energy : ℚ
  fmax_frags_raw : ℝ
  ifmax_frags_raw : ℕ
  fmax_frags_allowed : ℝ
  ifmax_frags_allowed : ℕ
  tmax_frags_raw : ℝ
  itmax_frags_raw : ℕ
  tmax_frags_allowed : ℝ
  itmax_frags_allowed : ℕ
  fmax_atoms : ℝ
  ifmax_atoms : ℕ

/-- The body of the `for iteration, step in enumerate(...)` loop of
`save_optimization_summary`: the `np.max`/`np.argmax` of the norms of the
per-fragment raw/allowed forces and torques and of the per-atom forces. -/
noncomputable def summaryRowOf (iteration : ℕ) (step : OptimizationStep) : SummaryRow :=
  { step := iteration
    energy := step.energy
    fmax_frags_raw := npMax (step.forces_raw.map norm3)
    ifmax_frags_raw := npArgmax (step.forces_raw.map norm3)
    fmax_frags_allowed := npMax (step.forces_allowed.map norm3)
    ifmax_frags_allowed := npArgmax (step.forces_allowed.map norm3)
    tmax_frags_raw := npMax (step.torques_raw.map norm3)
    itmax_frags_raw := npArgmax (step.torques_raw.map norm3)
    tmax_frags_allowed := npMax (step.torques_allowed.map norm3)
    itmax_frags_allowed := npArgmax (step.torques_allowed.map norm3)
    fmax_atoms := npMax (step.forces_on_atoms.map norm3)
    ifmax_atoms := npArgmax (step.forces_on_atoms.map norm3) }

/-- The summary loop, carrying the running `enumerate` counter. -/
noncomputable def summaryRowsFrom (iteration : ℕ) : List OptimizationStep → List SummaryRow
  | [] => []
  | s :: rest => summaryRowOf iteration s :: summaryRowsFrom (iteration + 1) rest

/-- The data rows written by `save_optimization_summary`, in history order. -/
noncomputable def summaryRows (hist : List OptimizationStep) : List SummaryRow :=
  summaryRowsFrom 0 hist

/-- True when none of the per-step force/torque lists is empty; on a step
violating this, `np.max([])` in the summary loop raises `ValueError`. -/
def stepListsNonempty (s : OptimizationStep) : Bool :=
  !s.forces_raw.isEmpty && !s.forces_allowed.isEmpty &&
  !s.torques_raw.isEmpty && !s.torques_allowed.isEmpty &&
  !s.forces_on_atoms.isEmpty

/-- One frame of the ASE trajectory file: the written atoms and energy. -/
structure TrajFrame where
  atoms : Atoms
  energy : ℚ
deriving DecidableEq

/-- The frame `traj.write(atoms=step.structure.atoms, energy=step.energy)`
appends for one step. -/
def trajFrameOf (s : OptimizationStep) : TrajFrame :=
  { atoms := s.structure_.atoms, energy := s.energy }

/-- Python list indexing with a possibly negative index (`l[i]`);
`none` is an `IndexError`. -/
def pyIndex (l : List α) (i : Int) : Option α :=
  if i < 0 then
    let j : Int := i + l.length
    if j < 0 then none else l.get? j.toNat
  else
    l.get? i.toNat

/-- The file-handle state: which output files currently hold an open handle. -/
structure FS where
  openHandles : List FileKind
deriving DecidableEq

/-- `open(fn, ...)` / `Trajectory(fn, "w")`: acquire a handle. -/
def FS.openFile (fs : FS) (k : FileKind) : FS :=
  { openHandles := k :: fs.openHandles }

/-- `f.close()` / leaving a `with` block: release the handle. -/
def FS.closeFile (fs : FS) (k : FileKind) : FS :=
  { openHandles := fs.openHandles.erase k }

/-- Runtime errors of the persistence functions. -/
inductive PersistErr
  | writeFailed (k : FileKind)
  | indexError
  | valueError
deriving DecidableEq

/-- The failure environment: `env k = true` means any write issued against
file `k` raises (disk full, permissions, ...). -/
abbrev Env := FileKind → Bool

/-- `RIIGID.save_optimization_history`: `f = open(fn, "wb")`,
`pickle.dump(optimization_history, f)`, `f.close()`.  The three statements
are sequential with no `with`/`try`: when the dump raises, the close is
never reached and the handle stays open.  Returns the new handle state, the
pickled payload (if written) and the outcome. -/
def save_optimization_history_run (env : Env) (fs : FS)
    (optimization_history : List OptimizationStep) :
    FS × Option (List OptimizationStep) × Except PersistErr Unit :=
  let fs1 := fs.openFile FileKind.hist_file
  if env FileKind.hist_file then
    (fs1, none, Except.error (PersistErr.writeFailed FileKind.hist_file))
  else
    (fs1.closeFile FileKind.hist_file, some optimization_history, Except.ok ())

/-- The `for optimization_step in optimization_history: traj.write(...)`
loop, accumulating written frames; a write raises when the environment
fails the trajectory file. -/
def trajWriteLoopRun (env : Env) : List OptimizationStep → List TrajFrame →
    List TrajFrame × Except PersistErr Unit
  | [], acc => (acc, Except.ok ())
  | s :: rest, acc =>
      if env FileKind.traj_file then
        (acc, Except.error (PersistErr.writeFailed FileKind.traj_file))
      else
        trajWriteLoopRun env rest (acc ++ [trajFrameOf s])

/-- `RIIGID.create_trajectory_file_from_optimization_history`:
`traj = Trajectory(fn, "w")`, the write loop, `traj.close()`.  The close
is sequential (no `with`/`try`): when a write raises, the handle stays
open. -/
def create_trajectory_file_run (env : Env) (fs : FS)
    (optimization_history : List OptimizationStep) :
    FS × List TrajFrame × Except PersistErr Unit :=
  let fs1 := fs.openFile FileKind.traj_file
  match trajWriteLoopRun env optimization_history [] with
  | (frames, Except.ok ()) => (fs1.closeFile FileKind.traj_file, frames, Except.ok ())
  | (frames, Except.error e) => (fs1, frames, Except.error e)

/-- `RIIGID.save_final_geometry`: `ase_write(filename=...,
images=optimization_history[-1].structure.atoms)`.  The `[-1]` indexing
raises `IndexError` on an empty history; the write itself is internal to
ASE (no handle of ours), and may fail.  Returns the written atoms. -/
def save_final_geometry_run (env : Env) (fs : FS)
    (optimization_history : List OptimizationStep) :
    FS × Option Atoms × Except PersistErr Unit :=
  match pyIndex optimization_history (-1) with
  | none => (fs, none, Except.error PersistErr.indexError)
  | some s =>
      if env FileKind.geom_file then
        (fs, none, Except.error (PersistErr.writeFailed FileKind.geom_file))
      else
        (fs, some s.structure_.atoms, Except.ok ())

/-- `RIIGID.save_optimization_summary`: `with open(fn, "w") as file`, the
header writes, then one row per history step.  The `with` block closes the
handle on every exit path; the header write raises when the environment
fails the summary file, and a step with an empty force/torque list makes
`np.max([])` raise `ValueError` after the rows of the preceding steps were
written. -/
noncomputable def save_optimization_summary_run (env : Env) (fs : FS)
    (optimization_history : List OptimizationStep) :
    FS × List SummaryRow × Except PersistErr Unit :=
  let fs1 := fs.openFile FileKind.summary_file
  if env FileKind.summary_file then
    (fs1.closeFile FileKind.summary_file, [],
     Except.error (PersistErr.writeFailed FileKind.summary_file))
  else if optimization_history.all stepListsNonempty then
    (fs1.closeFile FileKind.summary_file, summaryRows optimization_history, Except.ok ())
  else
    (fs1.closeFile FileKind.summary_file,
     summaryRows (optimization_history.takeWhile stepListsNonempty),
     Except.error PersistErr.valueError)

/-- The state a `RIIGID` session exposes to the persistence functions: the
start structure and the optimizer's append-only optimization history. -/
structure SessionState where
  start_structure : Structure
  optimization_history : List OptimizationStep
deriving DecidableEq

/-- The artifacts written by one `save_optimization_progress` call. -/
structure Artifacts where
  histDump : Option (List OptimizationStep)
  trajFrames : List TrajFrame
  geom : Option Atoms
  summary : List SummaryRow

/-- `RIIGID.save_optimization_progress`: runs the four persistence
functions in source order, stopping at the first raised error, which
propagates to the caller; the session state is only read, never written. -/
noncomputable def save_optimization_progress_run (env : Env) (session : SessionState)
    (fs : FS) : SessionState × FS × Artifacts × Except PersistErr Unit :=
  let hist := session.optimization_history
  match save_optimization_history_run env fs hist with
  | (fs1, dump, Except.error e) =>
      (session, fs1,
       { histDump := dump, trajFrames := [], geom := none, summary := [] },
       Except.error e)
  | (fs1, dump, Except.ok ()) =>
    match create_trajectory_file_run env fs1 hist with
    | (fs2, frames, Except.error e) =>
        (session, fs2,
         { histDump := dump, trajFrames := frames, geom := none, summary := [] },
         Except.error e)
    | (fs2, frames, Except.ok ()) =>
      match save_final_geometry_run env fs2 hist with
      | (fs3, g, Except.error e) =>
          (session, fs3,
           { histDump := dump, trajFrames := frames, geom := g, summary := [] },
           Except.error e)
      | (fs3, g, Except.ok ()) =>
        match save_optimization_summary_run env fs3 hist with
        | (fs4, rows, res) =>
            (session, fs4,
             { histDump := dump, trajFrames := frames, geom := g, summary := rows },
             res)

/-- Concrete example values used by the closed instances below. -/
def exAtom : Atom := { species := "H", position := (0, 0, 0) }

def exStructure : Structure := { atoms := [exAtom] }

def exAtomB : Atom := { species := "O", position := (1, 0, 0) }

def exStructureB : Structure := { atoms := [exAtomB] }

def exStep1 : OptimizationStep :=
  { structure_ := exStructure
    energy := 0
    forces_on_atoms := [(3, 4, 0)]
    forces_raw := [(1, 0, 0), (0, 2, 0)]
    forces_allowed := [(1, 0, 0)]
    torques_raw := [(0, 0, 1)]
    torques_allowed := [(0, 0, 2)] }

def exStep2 : OptimizationStep :=
  { structure_ := exStructureB
    energy := -(12345678901 : ℚ) / 10000000000
    forces_on_atoms := [(0, 0, 5), (3, 4, 0)]
    forces_raw := [(0, 2, 0), (1, 0, 0)]
    forces_allowed := [(0, 1, 0), (0, 1, 0)]
    torques_raw := [(2, 0, 0)]
    torques_allowed := [(0, 0, 1)] }

def exHist : List OptimizationStep := [exStep1, exStep2]

/-- Failure environment that fails every write to the history file. -/
def envFailHist : Env := fun k => decide (k = FileKind.hist_file)

/-- Failure environment that fails every write to the summary file. -/
def envFailSummary : Env := fun k => decide (k = FileKind.summary_file)

/-- Environment in which every write succeeds. -/
def envOk : Env := fun _ => false

section Lemmas

lemma foldl_max_init_le (a : ℝ) (l : List ℝ) : a ≤ l.foldl max a := by
  induction l generalizing a with
  | nil => exact le_refl a
  | cons x xs ih =>
      simp only [List.foldl_cons]
      exact le_trans (le_max_left a x) (ih (max a x))

lemma le_foldl_max_of_mem {x : ℝ} {l : List ℝ} (a : ℝ) (hx : x ∈ l) :
    x ≤ l.foldl max a := by
  induction l generalizing a with
  | nil => cases hx
  | cons y ys ih =>
      simp only [List.foldl_cons]
      rcases List.mem_cons.mp hx with h | h
      · subst h
        exact le_trans (le_max_right a x) (foldl_max_init_le (max a x) ys)
      · exact ih (max a y) h

lemma foldl_max_eq_or_mem (a : ℝ) (l : List ℝ) :
    l.foldl max a = a ∨ l.foldl max a ∈ l := by
  induction l generalizing a with
  | nil => exact Or.inl rfl
  | cons y ys ih =>
      simp only [List.foldl_cons]
      rcases ih (max a y) with h | h
      · rcases max_choice a y with h1 | h1
        · exact Or.inl (h.trans h1)
        · exact Or.inr (by rw [h, h1]; exact List.mem_cons_self y ys)
      · exact Or.inr (List.mem_cons_of_mem y h)

lemma npMax_mem {l : List ℝ} (h : l ≠ []) : npMax l ∈ l := by
  match l with
  | [] => exact absurd rfl h
  | x :: xs =>
      rcases foldl_max_eq_or_mem x xs with h1 | h1
      · rw [npMax, h1]; exact List.mem_cons_self x xs
      · exact List.mem_cons_of_mem x (by rw [npMax]; exact h1)

lemma le_npMax {l : List ℝ} {x : ℝ} (hx : x ∈ l) : x ≤ npMax l := by
  match l with
  | [] => cases hx
  | y :: ys =>
      rcases List.mem_cons.mp hx with h | h
      · subst h; exact foldl_max_init_le x ys
      · exact le_foldl_max_of_mem y h

lemma firstIdxOf_lt_length {m : ℝ} {l : List ℝ} (h : m ∈ l) :
    firstIdxOf m l < l.length := by
  induction l with
  | nil => cases h
  | cons x xs ih =>
      by_cases hx : x = m
      · simp [firstIdxOf, hx]
      · have hm : m ∈ xs := by
          rcases List.mem_cons.mp h with h1 | h1
          · exact absurd h1.symm hx
          · exact h1
        simpa [firstIdxOf, hx] using ih hm

lemma getD_firstIdxOf {m : ℝ} {l : List ℝ} (h : m ∈ l) :
    l.getD (firstIdxOf m l) 0 = m := by
  induction l with
  | nil => cases h
  | cons x xs ih =>
      by_cases hx : x = m
      · simp [firstIdxOf, hx]
      · have hm : m ∈ xs := by
          rcases List.mem_cons.mp h with h1 | h1
          · exact absurd h1.symm hx
          · exact h1
        simpa [firstIdxOf, hx] using ih hm

lemma firstIdxOf_first {m : ℝ} {l : List ℝ} :
    ∀ k < firstIdxOf m l, l.getD k 0 ≠ m := by
  induction l with
  | nil => intro k hk; simp [firstIdxOf] at hk
  | cons x xs ih =>
      intro k hk
      by_cases hx : x = m
      · simp [firstIdxOf, hx] at hk
      · rw [firstIdxOf, if_neg hx] at hk
        match k with
        | 0 => simpa using hx
        | k + 1 =>
            have hk' : k < firstIdxOf m xs := Nat.lt_of_succ_lt_succ hk
            simpa using ih k hk'

lemma isFirstMax_npMax {l : List ℝ} (h : l ≠ []) :
    isFirstMax l (npMax l) (npArgmax l) := by
  refine ⟨firstIdxOf_lt_length (npMax_mem h), getD_firstIdxOf (npMax_mem h),
          fun x hx => le_npMax hx, fun k hk => firstIdxOf_first k hk⟩

lemma summaryRowsFrom_length (n : ℕ) (hist : List OptimizationStep) :
    (summaryRowsFrom n hist).length = hist.length := by
  induction hist generalizing n with
  | nil => rfl
  | cons s rest ih => simp [summaryRowsFrom, ih]

lemma summaryRowsFrom_get? (n i : ℕ) (hist : List OptimizationStep) :
    (summaryRowsFrom n hist).get? i = (hist.get? i).map (fun s => summaryRowOf (n + i) s) := by
  induction hist generalizing n i with
  | nil => simp [summaryRowsFrom]
  | cons s rest ih =>
      match i with
      | 0 => simp [summaryRowsFrom]
      | i + 1 =>
          have hn : n + 1 + i = n + (i + 1) := by omega
          simp only [summaryRowsFrom, List.get?_cons_succ, ih (n + 1) i, hn]

lemma trajWriteLoopRun_ok {env : Env} (h : env FileKind.traj_file = false) :
    ∀ (hist : List OptimizationStep) (acc : List TrajFrame),
      trajWriteLoopRun env hist acc = (acc ++ hist.map trajFrameOf, Except.ok ()) := by
  intro hist
  induction hist with
  | nil => intro acc; simp [trajWriteLoopRun]
  | cons s rest ih =>
      intro acc
      rw [trajWriteLoopRun, if_neg (by simp [h]), ih]
      simp

lemma pyIndex_neg_one {α : Type _} (l : List α) (h : l ≠ []) :
    pyIndex l (-1) = some (l.getLast h) := by
  have hlen : 0 < l.length := List.length_pos.mpr h
  have h1 : ¬((-1 : Int) + l.length < 0) := by
    have : (1 : Int) ≤ l.length := by exact_mod_cast hlen
    omega
  have h2 : ((-1 : Int) + l.length).toNat = l.length - 1 := by omega
  rw [pyIndex, if_pos (by norm_num), if_neg h1, h2]
  rw [List.getLast_eq_get l h, List.get?_eq_get]

lemma hist_run_of_fail {env : Env} (fs : FS) (hist : List OptimizationStep)
    (h : env FileKind.hist_file = true) :
    save_optimization_history_run env fs hist =
      (fs.openFile FileKind.hist_file, none,
       Except.error (PersistErr.writeFailed FileKind.hist_file)) := by
  rw [save_optimization_history_run]
  simp [h]

lemma hist_run_of_ok {env : Env} (fs : FS) (hist : List OptimizationStep)
    (h : env FileKind.hist_file = false) :
    save_optimization_history_run env fs hist = (fs, some hist, Except.ok ()) := by
  rw [save_optimization_history_run]
  simp [h, FS.openFile, FS.closeFile]

lemma traj_run_of_fail {env : Env} (fs : FS) (s : OptimizationStep)
    (rest : List OptimizationStep) (h : env FileKind.traj_file = true) :
    create_trajectory_file_run env fs (s :: rest) =
      (fs.openFile FileKind.traj_file, [],
       Except.error (PersistErr.writeFailed FileKind.traj_file)) := by
  rw [create_trajectory_file_run, trajWriteLoopRun, if_pos (by simp [h])]

lemma traj_run_of_ok {env : Env} (fs : FS) (hist : List OptimizationStep)
    (h : env FileKind.traj_file = false) :
    create_trajectory_file_run env fs hist = (fs, hist.map trajFrameOf, Except.ok ()) := by
  rw [create_trajectory_file_run, trajWriteLoopRun_ok h]
  simp [FS.openFile, FS.closeFile]

lemma geom_run_of_fail {env : Env} (fs : FS) (hist : List OptimizationStep)
    (hne : hist ≠ []) (h : env FileKind.geom_file = true) :
    save_final_geometry_run env fs hist =
      (fs, none, Except.error (PersistErr.writeFailed FileKind.geom_file)) := by
  rw [save_final_geometry_run, pyIndex_neg_one hist hne]
  simp [h]

lemma geom_run_of_ok {env : Env} (fs : FS) (hist : List OptimizationStep)
    (hne : hist ≠ []) (h : env FileKind.geom_file = false) :
    save_final_geometry_run env fs hist =
      (fs, some ((hist.getLast hne).structure_.atoms), Except.ok ()) := by
  rw [save_final_geometry_run, pyIndex_neg_one hist hne]
  simp [h]

lemma summary_run_of_fail {env : Env} (fs : FS) (hist : List OptimizationStep)
    (h : env FileKind.summary_file = true) :
    save_optimization_summary_run env fs hist =
      (fs, [], Except.error (PersistErr.writeFailed FileKind.summary_file)) := by
  rw [save_optimization_summary_run]
  simp [h, FS.openFile, FS.closeFile]

lemma summary_run_of_ok {env : Env} (fs : FS) (hist : List OptimizationStep)
    (h : env FileKind.summary_file = false)
    (hw : hist.all stepListsNonempty = true) :
    save_optimization_summary_run env fs hist = (fs, summaryRows hist, Except.ok ()) := by
  rw [save_optimization_summary_run]
  simp [h, hw, FS.openFile, FS.closeFile]

lemma progress_run_session (env : Env) (session : SessionState) (fs : FS) :
    (save_optimization_progress_run env session fs).1 = session := by
  rw [save_optimization_progress_run]
  split
  · rfl
  · split
    · rfl
    · split
      · rfl
      · split
        rfl

end Lemmas

/-- C1: Calling `run()` when no calculator has been configured raises the
configuration error before any calculator invocation and before any
optimizer work, and produces no output artifacts: the effect trace is
empty (no optimizer run, no calculator call, no history, trajectory,
geometry or summary write). -/
theorem C1_run_without_calculator_raises (st : RIIGIDState)
    (h : st.calculator = none) :
    run st = ([], Except.error RIIGIDError.noCalculatorDefined) := by
  rw [run, h]
  rfl

/-- C1 witness: a freshly initialized session has no calculator, and `run`
on it raises with an empty effect trace. -/
theorem C1_run_without_calculator_raises_witness :
    (init [exAtom]).calculator = none ∧
    run (init [exAtom]) = ([], Except.error RIIGIDError.noCalculatorDefined) :=
  ⟨rfl, C1_run_without_calculator_raises (init [exAtom]) rfl⟩

/-- C2: For every unrecognized string name, each of the three setters
raises its configuration error synchronously, performs no effect (in
particular no calculator invocation), and leaves the session state — hence
the corresponding component attribute — unchanged. -/
theorem C2_unknown_component_name_raises (st : RIIGIDState) (settings : Settings)
    (s1 s2 s3 : String)
    (h1 : lowerStr s1 ≠ "vasp")
    (h2a : lowerStr s2 ≠ "gdwas") (h2b : lowerStr s2 ≠ "gd") (h2c : lowerStr s2 ≠ "gpr")
    (h3a : lowerStr s3 ≠ "criterion_displacement")
    (h3b : lowerStr s3 ≠ "criterion_force_torque") :
    set_calculator st (Sum.inl s1) settings =
      (st, [], some RIIGIDError.calculatorNotKnown) ∧
    set_optimizer st (Sum.inl s2) settings =
      (st, [], some RIIGIDError.optimizerNotKnown) ∧
    set_convergence_criterion st (Sum.inl s3) settings =
      (st, [], some RIIGIDError.convergenceCriterionNotKnown) := by
  refine ⟨?_, ?_, ?_⟩
  · simp [set_calculator, h1]
  · simp [set_optimizer, h2a, h2b, h2c]
  · simp [set_convergence_criterion, h3a, h3b]

/-- C2 witness: the name `"foo"` is not recognized by any of the three
setters; each raises and leaves the fresh session state unchanged. -/
theorem C2_unknown_component_name_raises_witness :
    (lowerStr "foo" ≠ "vasp" ∧ lowerStr "foo" ≠ "gdwas" ∧ lowerStr "foo" ≠ "gd" ∧
     lowerStr "foo" ≠ "gpr" ∧ lowerStr "foo" ≠ "criterion_displacement" ∧
     lowerStr "foo" ≠ "criterion_force_torque") ∧
    (set_calculator (init [exAtom]) (Sum.inl "foo") [] =
      (init [exAtom], [], some RIIGIDError.calculatorNotKnown) ∧
     set_optimizer (init [exAtom]) (Sum.inl "foo") [] =
      (init [exAtom], [], some RIIGIDError.optimizerNotKnown) ∧
     set_convergence_criterion (init [exAtom]) (Sum.inl "foo") [] =
      (init [exAtom], [], some RIIGIDError.convergenceCriterionNotKnown)) :=
  ⟨⟨by decide, by decide, by decide, by decide, by decide, by decide⟩,
   C2_unknown_component_name_raises (init [exAtom]) [] "foo" "foo" "foo"
     (by decide) (by decide) (by decide) (by decide) (by decide) (by decide)⟩

/-- C3: For a non-empty history (with non-empty per-step force/torque
lists, on which the source would raise), the summary table has exactly one
data row per step, in history order; row `i` carries the step index `i`,
step `i`'s energy, and for each of the five norm families the maximum
magnitude together with the index first attaining it. -/
theorem C3_summary_table_rows (hist : List OptimizationStep)
    (hne : hist ≠ [])
    (hw : ∀ s ∈ hist, s.forces_raw ≠ [] ∧ s.forces_allowed ≠ [] ∧
          s.torques_raw ≠ [] ∧ s.torques_allowed ≠ [] ∧ s.forces_on_atoms ≠ []) :
    summaryRows hist ≠ [] ∧
    (summaryRows hist).length = hist.length ∧
    ∀ i step row, hist.get? i = some step → (summaryRows hist).get? i = some row →
      row.step = i ∧
      row.energy = step.energy ∧
      isFirstMax (step.forces_raw.map norm3) row.fmax_frags_raw row.ifmax_frags_raw ∧
      isFirstMax (step.forces_allowed.map norm3) row.fmax_frags_allowed
        row.ifmax_frags_allowed ∧
      isFirstMax (step.torques_raw.map norm3) row.tmax_frags_raw row.itmax_frags_raw ∧
      isFirstMax (step.torques_allowed.map norm3) row.tmax_frags_allowed
        row.itmax_frags_allowed ∧
      isFirstMax (step.forces_on_atoms.map norm3) row.fmax_atoms row.ifmax_atoms := by
  have hlen : (summaryRows hist).length = hist.length := summaryRowsFrom_length 0 hist
  refine ⟨?_, hlen, ?_⟩
  · intro hnil
    rw [hnil] at hlen
    exact hne (List.length_eq_zero.mp hlen.symm)
  · intro i step row hstep hrow
    have hr : (summaryRows hist).get? i = some (summaryRowOf i step) := by
      rw [summaryRows, summaryRowsFrom_get? 0 i, hstep]
      simp
    have hrws : summaryRowOf i step = row := by
      rw [hr] at hrow
      exact Option.some.inj hrow
    subst hrws
    have hmem : step ∈ hist := List.get?_mem hstep
    obtain ⟨w1, w2, w3, w4, w5⟩ := hw step hmem
    refine ⟨rfl, rfl, ?_, ?_, ?_, ?_, ?_⟩
    · exact isFirstMax_npMax (by simpa [List.map_eq_nil] using w1)
    · exact isFirstMax_npMax (by simpa [List.map_eq_nil] using w2)
    · exact isFirstMax_npMax (by simpa [List.map_eq_nil] using w3)
    · exact isFirstMax_npMax (by simpa [List.map_eq_nil] using w4)
    · exact isFirstMax_npMax (by simpa [List.map_eq_nil] using w5)

/-- C3 witness: the two-step example history with energies `0` and
`-1.2345678901` satisfies the hypotheses, so its summary rows carry the
exact energies and correct maxima/argmax indices. -/
theorem C3_summary_table_rows_witness :
    (exHist ≠ [] ∧ ∀ s ∈ exHist, s.forces_raw ≠ [] ∧ s.forces_allowed ≠ [] ∧
      s.torques_raw ≠ [] ∧ s.torques_allowed ≠ [] ∧ s.forces_on_atoms ≠ []) ∧
    (summaryRows exHist ≠ [] ∧
     (summaryRows exHist).length = exHist.length ∧
     ∀ i step row, exHist.get? i = some step → (summaryRows exHist).get? i = some row →
       row.step = i ∧
       row.energy = step.energy ∧
       isFirstMax (step.forces_raw.map norm3) row.fmax_frags_raw row.ifmax_frags_raw ∧
       isFirstMax (step.forces_allowed.map norm3) row.fmax_frags_allowed
         row.ifmax_frags_allowed ∧
       isFirstMax (step.torques_raw.map norm3) row.tmax_frags_raw row.itmax_frags_raw ∧
       isFirstMax (step.torques_allowed.map norm3) row.tmax_frags_allowed
         row.itmax_frags_allowed ∧
       isFirstMax (step.forces_on_atoms.map norm3) row.fmax_atoms row.ifmax_atoms) :=
  ⟨⟨by decide, by decide⟩, C3_summary_table_rows exHist (by decide) (by decide)⟩

/-- C4: refutation of scoped resource acquisition.  When the pickle dump
into the history file raises, `save_optimization_history` (plain
`open`/`close`, no `with`/`try`) leaves the file handle open while the
error propagates; by contrast the summary writer's `with` block closes its
handle even when its write raises. -/
theorem C4_history_write_failure_leaks_handle :
    (save_optimization_history_run envFailHist { openHandles := [] } exHist).1.openHandles =
      [FileKind.hist_file] ∧
    (save_optimization_history_run envFailHist { openHandles := [] } exHist).2.2 =
      Except.error (PersistErr.writeFailed FileKind.hist_file) ∧
    (save_optimization_summary_run envFailSummary { openHandles := [] } exHist).1.openHandles =
      [] ∧
    (save_optimization_summary_run envFailSummary { openHandles := [] } exHist).2.2 =
      Except.error (PersistErr.writeFailed FileKind.summary_file) :=
  ⟨rfl, rfl, rfl, rfl⟩

/-- C5: `save_optimization_progress` leaves the session (history and start
structure) untouched, and its outcome is ok exactly when no write fails:
any artifact-write failure is propagated to the caller (never swallowed),
and the accumulated history is exactly as it was. -/
theorem C5_write_failure_propagates_history_intact (env : Env)
    (session : SessionState) (fs : FS)
    (hne : session.optimization_history ≠ [])
    (hw : session.optimization_history.all stepListsNonempty = true) :
    (save_optimization_progress_run env session fs).1 = session ∧
    ((save_optimization_progress_run env session fs).2.2.2 = Except.ok () ↔
      env FileKind.hist_file = false ∧ env FileKind.traj_file = false ∧
      env FileKind.geom_file = false ∧ env FileKind.summary_file = false) := by
  refine ⟨progress_run_session env session fs, ?_⟩
  obtain ⟨s, rest, hcons⟩ := List.exists_cons_of_ne_nil hne
  cases hh : env FileKind.hist_file with
  | true =>
      simp [save_optimization_progress_run, hist_run_of_fail, hh]
  | false =>
      cases ht : env FileKind.traj_file with
      | true =>
          simp [save_optimization_progress_run, hist_run_of_ok, hcons,
                traj_run_of_fail, hh, ht]
      | false =>
          cases hg : env FileKind.geom_file with
          | true =>
              simp [save_optimization_progress_run, hist_run_of_ok,
                    traj_run_of_ok, geom_run_of_fail _ _ hne, hh, ht, hg]
          | false =>
              cases hs : env FileKind.summary_file with
              | true =>
                  simp [save_optimization_progress_run, hist_run_of_ok,
                        traj_run_of_ok, geom_run_of_ok _ _ hne,
                        summary_run_of_fail, hh, ht, hg, hs]
              | false =>
                  simp [save_optimization_progress_run, hist_run_of_ok,
                        traj_run_of_ok, geom_run_of_ok _ _ hne,
                        summary_run_of_ok _ _ hs hw, hh, ht, hg, hs]

/-- C5 witness: on the example session, with every write succeeding, the
session is preserved and the outcome is ok; the equivalence ties failure
of any write to a propagated error. -/
theorem C5_write_failure_propagates_history_intact_witness :
    (({ start_structure := exStructure, optimization_history := exHist } :
        SessionState).optimization_history ≠ [] ∧
     ({ start_structure := exStructure, optimization_history := exHist } :
        SessionState).optimization_history.all stepListsNonempty = true) ∧
    ((save_optimization_progress_run envOk
        { start_structure := exStructure, optimization_history := exHist }
        { openHandles := [] }).1 =
      { start_structure := exStructure, optimization_history := exHist } ∧
     ((save_optimization_progress_run envOk
        { start_structure := exStructure, optimization_history := exHist }
        { openHandles := [] }).2.2.2 = Except.ok () ↔
       envOk FileKind.hist_file = false ∧ envOk FileKind.traj_file = false ∧
       envOk FileKind.geom_file = false ∧ envOk FileKind.summary_file = false)) :=
  ⟨⟨by decide, by decide⟩,
   C5_write_failure_propagates_history_intact envOk
     { start_structure := exStructure, optimization_history := exHist }
     { openHandles := [] } (by decide) (by decide)⟩

/-- C6: the trajectory artifact holds one `(atoms, energy)` frame per
history step, in history order, frame `i` holding step `i`'s resulting
atom set and energy (for any history, when the trajectory writes
succeed). -/
theorem C6_trajectory_one_frame_per_step (env : Env) (fs : FS)
    (hist : List OptimizationStep)
    (henv : env FileKind.traj_file = false) :
    (create_trajectory_file_run env fs hist).2.2 = Except.ok () ∧
    (create_trajectory_file_run env fs hist).2.1.length = hist.length ∧
    ∀ i step, hist.get? i = some step →
      (create_trajectory_file_run env fs hist).2.1.get? i =
        some { atoms := step.structure_.atoms, energy := step.energy } := by
  rw [traj_run_of_ok fs hist henv]
  refine ⟨rfl, by simp, ?_⟩
  intro i step hstep
  rw [List.get?_map, hstep]
  rfl

/-- C6 witness: on the two-step example history, the trajectory file gets
exactly the two frames, in order, with the step energies. -/
theorem C6_trajectory_one_frame_per_step_witness :
    envOk FileKind.traj_file = false ∧
    ((create_trajectory_file_run envOk { openHandles := [] } exHist).2.2 =
        Except.ok () ∧
     (create_trajectory_file_run envOk { openHandles := [] } exHist).2.1.length =
        exHist.length ∧
     ∀ i step, exHist.get? i = some step →
       (create_trajectory_file_run envOk { openHandles := [] } exHist).2.1.get? i =
         some { atoms := step.structure_.atoms, energy := step.energy }) :=
  ⟨rfl, C6_trajectory_one_frame_per_step envOk { openHandles := [] } exHist rfl⟩

/-- C7: the final-geometry artifact is exactly the atom set of the last
step of a non-empty history. -/
theorem C7_final_geometry_is_last_step (env : Env) (fs : FS)
    (hist : List OptimizationStep) (hne : hist ≠ [])
    (henv : env FileKind.geom_file = false) :
    save_final_geometry_run env fs hist =
      (fs, some ((hist.getLast hne).structure_.atoms), Except.ok ()) :=
  geom_run_of_ok fs hist hne henv

/-- C7 witness: on the example history the written geometry is the atom
set of the second (last) step. -/
theorem C7_final_geometry_is_last_step_witness :
    exHist ≠ [] ∧ envOk FileKind.geom_file = false ∧
    save_final_geometry_run envOk { openHandles := [] } exHist =
      ({ openHandles := [] }, some exStructureB.atoms, Except.ok ()) := by
  have hne : exHist ≠ [] := by decide
  refine ⟨hne, rfl, ?_⟩
  rw [C7_final_geometry_is_last_step envOk { openHandles := [] } exHist hne rfl]
  rfl

/-- C8: `save_optimization_progress` is pure with respect to the session
state: the optimization history (all its steps, in order) and the start
structure are returned unchanged, for every failure environment. -/
theorem C8_progress_preserves_session (env : Env) (session : SessionState)
    (fs : FS) :
    (save_optimization_progress_run env session fs).1.optimization_history =
      session.optimization_history ∧
    (save_optimization_progress_run env session fs).1.start_structure =
      session.start_structure := by
  rw [progress_run_session env session fs]
  exact ⟨rfl, rfl⟩

/-- C9: with a calculator configured but no optimizer and no convergence
criterion, `run` does not raise: it substitutes the default `GDWAS`
optimizer and the force/torque criterion (default settings, i.e. empty
settings dict) before the optimizer loop runs. -/
theorem C9_run_substitutes_defaults (st : RIIGIDState) (c : Calculator)
    (hc : st.calculator = some c) (ho : st.optimizer = none)
    (hcc : st.convergence_criterion = none) :
    run st =
      ([Effect.optimizerRun,
        Effect.artifactWrite FileKind.hist_file,
        Effect.artifactWrite FileKind.traj_file,
        Effect.artifactWrite FileKind.geom_file,
        Effect.artifactWrite FileKind.summary_file],
       Except.ok
         { start_structure := st.start_structure
           calculator := some c
           optimizer := some (Optimizer.gdwas [])
           convergence_criterion :=
             some (ConvergenceCriterion.criterion_force_torque []) }) := by
  obtain ⟨ss, cal, opt, cc⟩ := st
  dsimp only at hc ho hcc ⊢
  subst hc
  subst ho
  subst hcc
  rfl

/-- C9 witness: a session with only a calculator set runs without error
and ends with the GDWAS optimizer and force/torque criterion installed. -/
theorem C9_run_substitutes_defaults_witness :
    (({ start_structure := exStructure, calculator := some (Calculator.custom [])
        optimizer := none, convergence_criterion := none } :
        RIIGIDState).calculator = some (Calculator.custom []) ∧
     ({ start_structure := exStructure, calculator := some (Calculator.custom [])
        optimizer := none, convergence_criterion := none } :
        RIIGIDState).optimizer = none ∧
     ({ start_structure := exStructure, calculator := some (Calculator.custom [])
        optimizer := none, convergence_criterion := none } :
        RIIGIDState).convergence_criterion = none) ∧
    run { start_structure := exStructure, calculator := some (Calculator.custom [])
          optimizer := none, convergence_criterion := none } =
      ([Effect.optimizerRun,
        Effect.artifactWrite FileKind.hist_file,
        Effect.artifactWrite FileKind.traj_file,
        Effect.artifactWrite FileKind.geom_file,
        Effect.artifactWrite FileKind.summary_file],
       Except.ok
         { start_structure := exStructure
           calculator := some (Calculator.custom [])
           optimizer := some (Optimizer.gdwas [])
           convergence_criterion :=
             some (ConvergenceCriterion.criterion_force_torque []) }) :=
  ⟨⟨rfl, rfl, rfl⟩,
   C9_run_substitutes_defaults
     { start_structure := exStructure, calculator := some (Calculator.custom [])
       optimizer := none, convergence_criterion := none }
     (Calculator.custom []) rfl rfl rfl⟩

/-- C10: the string-name dispatch of the three setters is
case-insensitive: any string lowercasing to a recognized name selects the
corresponding component, with the given settings, and raises no error. -/
theorem C10_name_dispatch_case_insensitive (st : RIIGIDState)
    (settings : Settings) (s1 s2 s3 s4 s5 s6 : String)
    (h1 : lowerStr s1 = "vasp") (h2 : lowerStr s2 = "gdwas")
    (h3 : lowerStr s3 = "gd") (h4 : lowerStr s4 = "gpr")
    (h5 : lowerStr s5 = "criterion_displacement")
    (h6 : lowerStr s6 = "criterion_force_torque") :
    set_calculator st (Sum.inl s1) settings =
      ({ st with calculator := some (Calculator.vasp settings) }, [], none) ∧
    set_optimizer st (Sum.inl s2) settings =
      ({ st with optimizer := some (Optimizer.gdwas settings) }, [], none) ∧
    set_optimizer st (Sum.inl s3) settings =
      ({ st with optimizer := some (Optimizer.gd settings) }, [], none) ∧
    set_optimizer st (Sum.inl s4) settings =
      ({ st with optimizer := some (Optimizer.gpr settings) }, [], none) ∧
    set_convergence_criterion st (Sum.inl s5) settings =
      ({ st with convergence_criterion := some (ConvergenceCriterion.criterion_displacement settings) }, [], none) ∧
    set_convergence_criterion st (Sum.inl s6) settings =
      ({ st with convergence_criterion := some (ConvergenceCriterion.criterion_force_torque settings) }, [], none) := by
  refine ⟨?_, ?_, ?_, ?_, ?_, ?_⟩
  · simp [set_calculator, h1]
  · simp [set_optimizer, h2]
  · simp [set_optimizer, h3]
  · simp [set_optimizer, h4]
  · simp [set_convergence_criterion, h5]
  · simp [set_convergence_criterion, h6]

/-- C10 witness: mixed-capitalization spellings of all six recognized
names are dispatched to the same components without raising. -/
theorem C10_name_dispatch_case_insensitive_witness :
    (lowerStr "VASP" = "vasp" ∧ lowerStr "GdWaS" = "gdwas" ∧ lowerStr "GD" = "gd" ∧
     lowerStr "gPr" = "gpr" ∧ lowerStr "Criterion_Displacement" = "criterion_displacement" ∧
     lowerStr "CRITERION_FORCE_TORQUE" = "criterion_force_torque") ∧
    (set_calculator (init [exAtom]) (Sum.inl "VASP") [] =
      ({ init [exAtom] with calculator := some (Calculator.vasp []) }, [], none) ∧
     set_optimizer (init [exAtom]) (Sum.inl "GdWaS") [] =
      ({ init [exAtom] with optimizer := some (Optimizer.gdwas []) }, [], none) ∧
     set_optimizer (init [exAtom]) (Sum.inl "GD") [] =
      ({ init [exAtom] with optimizer := some (Optimizer.gd []) }, [], none) ∧
     set_optimizer (init [exAtom]) (Sum.inl "gPr") [] =
      ({ init [exAtom] with optimizer := some (Optimizer.gpr []) }, [], none) ∧
     set_convergence_criterion (init [exAtom]) (Sum.inl "Criterion_Displacement") [] =
      ({ init [exAtom] with convergence_criterion := some (ConvergenceCriterion.criterion_displacement []) }, [], none) ∧
     set_convergence_criterion (init [exAtom]) (Sum.inl "CRITERION_FORCE_TORQUE") [] =
      ({ init [exAtom] with convergence_criterion := some (ConvergenceCriterion.criterion_force_torque []) }, [], none)) :=
  ⟨⟨by decide, by decide, by decide, by decide, by decide, by decide⟩,
   C10_name_dispatch_case_insensitive (init [exAtom]) [] "VASP" "GdWaS" "GD" "gPr"
     "Criterion_Displacement" "CRITERION_FORCE_TORQUE"
     (by decide) (by decide) (by decide) (by decide) (by decide) (by decide)⟩

end Riigid
